import Mathlib

/-!
Verification of the backend-dispatch and configuration layer of
`networkx/utils/backends.py` and `networkx/utils/configs.py`.

The Python source is shallowly embedded: pure fragments become Lean
functions, mutation of the config / registry objects becomes explicit
state passing, and raised exceptions become `Except` errors.
-/

/-- Universe of plain Python values stored in configs and bound arguments
(`None`, booleans, integers, strings).  Rich enough for every claim. -/
inductive Value where
  | vNone
  | vBool (b : Bool)
  | vInt (n : Int)
  | vStr (s : String)
deriving DecidableEq, Repr

/-- A Python exception, as a structured value. -/
inductive PyErr where
  /-- `AttributeError`: the named attribute does not exist on the object. -/
  | attributeError (attrName : String)
  /-- `AttributeError(f"Invalid config name: {key!r}")` from `Config.__setattr__`. -/
  | invalidConfigName (key : String)
  /-- `TypeError` from a dataclass `__init__` receiving an unexpected keyword. -/
  | initUnexpectedKw (key : String)
  /-- `TypeError` from a dataclass `__init__` missing a required keyword. -/
  | initMissingKw (key : String)
  /-- `KeyError` from `bound.arguments[key]` with an unbound name. -/
  | keyError (key : String)
  /-- `NameError`: a plain name is not defined in any enclosing scope. -/
  | nameError (n : String)
  /-- `TypeError` from iterating a non-iterable value. -/
  | typeErrorBadIter
  /-- `IndexError` from `s[0]` on an empty string. -/
  | indexError
  /-- `IndexError` from `list.pop()` on an empty list. -/
  | popFromEmptyList
deriving DecidableEq, Repr

/-- Association-list lookup, mirroring Python `dict.__getitem__` /
`dict.get` on a dict represented as an insertion-ordered pair list. -/
def pyGet {A : Type} (xs : List (String × A)) (k : String) : Option A :=
  match xs with
  | [] => none
  | (k2, v) :: rest => if k2 = k then some v else pyGet rest k

/-- Lookup in a config's key→value data. -/
abbrev lookupV (xs : List (String × Value)) (k : String) : Option Value :=
  pyGet xs k

/-- `d[k] = v` on an insertion-ordered dict: update in place if the key is
present, else append (Python dict semantics). -/
def updInsert (xs : List (String × Value)) (k : String) (v : Value) :
    List (String × Value) :=
  if xs.any (fun p => p.1 == k) then
    xs.map (fun p => if p.1 == k then (k, v) else p)
  else
    xs ++ [(k, v)]

/-- The identity of a `Config` (sub)class as created by `Config.__new__` in
`configs.py`: its name (standing in for the class object `_orig_class`),
the `strict` flag set by `__init_subclass__`, the declared dataclass
fields in declaration order, and the fields that carry default values. -/
structure ConfigClass where
  clsName : String
  strict : Bool
  fields : List String
  defaults : List (String × Value)
deriving DecidableEq, Repr

/-- The observable state of one `Config` instance.  `data` is the current
key/value content in iteration order (`__dataclass_fields__` order for a
strict config, `__dict__` insertion order for a flexible one).  `prev` and
`ctxStack` model the class attributes `_prev` and `_context_stack` that
`__new__` initialises to `None` and `[]`; for a strict (slots) config the
class object is rebuilt per instantiation, so they are per-instance state. -/
structure ConfigState where
  cls : ConfigClass
  data : List (String × Value)
  prev : Option (List (String × Value))
  ctxStack : List (Option (List (String × Value)))
deriving DecidableEq, Repr

/-- `dict(self)`: export the config as a plain key→value map
(`Config` is registered as a `Mapping`; iteration yields `data`). -/
def Config.export (st : ConfigState) : List (String × Value) :=
  st.data

/-- `Config.__setattr__` (configs.py lines 110-115): a strict config
rejects undeclared keys with `AttributeError`; otherwise the value is
passed through `_on_setattr` (the identity on the base class), stored,
and the class attribute `_prev` is reset to `None`. -/
def Config.setattr (st : ConfigState) (key : String) (v : Value) :
    Except PyErr ConfigState :=
  if st.cls.strict ∧ ¬ st.cls.fields.contains key then
    .error (.invalidConfigName key)
  else
    .ok { st with data := updInsert st.data key v, prev := none }

/-- `Config.__call__` (configs.py lines 190-197).  The first statement of
the loop body evaluates `self._check_config(key, val)`, but no attribute
`_check_config` is defined anywhere in `configs.py` (the validation hook
is named `_on_setattr`, see lines 99-101 and 113), so the call raises
`AttributeError` on any non-empty `kwargs` before anything is applied.
With empty `kwargs` both loops are skipped and `_prev` is set to the full
current snapshot `dict(self)`. -/
def Config.call (st : ConfigState) (kwargs : List (String × Value)) :
    Except PyErr ConfigState :=
  match kwargs with
  | [] => .ok { st with prev := some (Config.export st) }
  | _ :: _ => .error (.attributeError "_check_config")

/-- `Config.__enter__` (configs.py lines 199-202): push `_prev` onto
`_context_stack` and clear `_prev`. -/
def Config.enterScope (st : ConfigState) : ConfigState :=
  { st with ctxStack := st.prev :: st.ctxStack, prev := none }

/-- Reapply a snapshot through `setattr`, mirroring the loop
`for key, val in prev.items(): setattr(self, key, val)`. -/
def Config.applySnapshot (st : ConfigState) (snap : List (String × Value)) :
    Except PyErr ConfigState :=
  match snap with
  | [] => .ok st
  | (k, v) :: rest => do
    let st2 ← Config.setattr st k v
    Config.applySnapshot st2 rest

/-- `Config.__exit__` (configs.py lines 204-211): pop the top snapshot
(`IndexError` if the stack is empty); a falsy snapshot (`None` or the
empty dict) takes the defensive branch that just clears `_prev`; a
non-empty snapshot is reapplied key by key via `setattr`. -/
def Config.exitScope (st : ConfigState) : Except PyErr ConfigState :=
  match st.ctxStack with
  | [] => .error .popFromEmptyList
  | top :: rest =>
    let st1 := { st with ctxStack := rest }
    match top with
    | none => .ok { st1 with prev := none }
    | some snap =>
      if snap = [] then .ok { st1 with prev := none }
      else Config.applySnapshot st1 snap

/-- The dataclass-generated `__init__` produced in `Config.__new__`
(configs.py lines 83-96): keyword-only parameters are exactly the declared
fields; an unknown keyword or a missing no-default field is a `TypeError`;
each field is then assigned (through `__setattr__`, whose hook is the
identity on the base class), giving `data` in field-declaration order. -/
def Config.init (cls : ConfigClass) (kwargs : List (String × Value)) :
    Except PyErr ConfigState :=
  match kwargs.find? (fun p => ¬ cls.fields.contains p.1) with
  | some p => .error (.initUnexpectedKw p.1)
  | none =>
    match cls.fields.find?
        (fun f => ¬ (kwargs.any (fun p => p.1 == f)
                     ∨ cls.defaults.any (fun p => p.1 == f))) with
    | some f => .error (.initMissingKw f)
    | none =>
      .ok { cls := cls
            data := cls.fields.map
              (fun f => (f, ((lookupV kwargs f).or (lookupV cls.defaults f)).getD .vNone))
            prev := none
            ctxStack := [] }

/-- `Config._deserialize` applied to the payload of `Config.__reduce__`
(configs.py lines 182-187): call `cls(**kwargs)` on the original defining
class.  When the original class is the base `Config`, `__new__` first
synthesises a fresh strict class whose fields are exactly the keyword
names (configs.py lines 76-82). -/
def Config.reconstruct (cls : ConfigClass) (kwargs : List (String × Value)) :
    Except PyErr ConfigState :=
  if cls.clsName = "Config" then
    Config.init { clsName := "Config", strict := true,
                  fields := kwargs.map Prod.fst, defaults := [] } kwargs
  else
    Config.init cls kwargs

/-- Set-style equality of `ItemsView`s: `self.items() == other.items()`
compares the two key/value pair collections as sets. -/
def itemsSetEq (xs ys : List (String × Value)) : Bool :=
  xs.all (fun p => ys.any (fun q => q == p)) && ys.all (fun p => xs.any (fun q => q == p))

/-- `Config.__eq__` (configs.py lines 176-179): equal original defining
class and equal item sets. -/
def configEq (a b : ConfigState) : Bool :=
  a.cls == b.cls && itemsSetEq a.data b.data

/-!
## Model of `networkx/utils/backends.py`
-/

/-- A wrapped algorithm function; `dispatchname` models the attribute set by
`wrapped_func.dispatchname = name` in `_register_algo`. -/
structure AlgoFunc where
  funcId : Nat
  dispatchname : Option String
deriving DecidableEq, Repr

/-- The global `_registered_algorithms` dict (insertion-ordered). -/
structure AlgoRegistry where
  entries : List (String × AlgoFunc)
deriving DecidableEq, Repr

/-- `_register_algo` (backends.py lines 117-121).  The `KeyError` for a
duplicate name is raised before any mutation, so on error the registry is
returned unchanged; on success the wrapper is stored under `name` and its
`dispatchname` attribute is set to `name` (the stored entry is the same
object, so it carries the attribute too). -/
def registerAlgo (reg : AlgoRegistry) (name : String) (f : AlgoFunc) :
    AlgoRegistry × Option String :=
  if reg.entries.any (fun p => p.1 == name) then
    (reg, some "Algorithm already exists in dispatch registry")
  else
    ({ entries := reg.entries ++ [(name, { f with dispatchname := some name })] },
     none)

/-- The value supplied for one graph parameter at call time: `None`, or an
object that may or may not carry the `__networkx_plugin__` attribute. -/
inductive GVal where
  | vNone
  | vGraph (plugin : Option String)
deriving DecidableEq, Repr

/-- `hasattr(g, "__networkx_plugin__")`. -/
def GVal.hasTag : GVal → Bool
  | .vGraph (some _) => true
  | _ => false

/-- `getattr(g, "__networkx_plugin__", "networkx")`. -/
def GVal.tagOrDefault : GVal → String
  | .vGraph (some t) => t
  | _ => "networkx"

/-- The errors a dispatched call can raise. -/
inductive DispatchError where
  /-- `TypeError(f"{name}() got multiple values for {gname!r}")`. -/
  | multipleValues (fname gname : String)
  /-- `TypeError(f"{name}() missing required graph argument: {gname}")`. -/
  | missingRequired (fname gname : String)
  /-- `TypeError(f"{name}() required graph argument {gname!r} is None")`. -/
  | requiredIsNone (fname gname : String)
  /-- `TypeError(f"{name}() graphs must all be from the same plugin, found ...")`,
  carrying the set of plugin names found. -/
  | backendMismatch (fname : String) (tags : List String)
  /-- `ImportError(f"Unable to load plugin: {plugin_name}")`. -/
  | unableToLoadPlugin (pname : String)
  /-- `NetworkXNotImplemented(f"{name} not implemented by {plugin_name}")`. -/
  | notImplementedBy (fname pname : String)
deriving DecidableEq, Repr

/-- How a successful dispatched call executes. -/
inductive DispatchOutcome where
  /-- `func(*args, **kwds)` ran directly. -/
  | native
  /-- `getattr(backend, name)(*args, **kwds)` ran on the named backend. -/
  | backend (pname : String)
deriving DecidableEq, Repr

/-- Keyword-argument lookup (`gname in kwds` / `kwds[gname]`). -/
abbrev lookupKw (kwds : List (String × GVal)) (k : String) : Option GVal :=
  pyGet kwds k

/-- One iteration of the resolution loop in `wrapper` (backends.py lines
225-246) for the spec entry `(gname, pos)`: `.ok (some v)` adds `v` to
`graphs_resolved`, `.ok none` skips the entry (`continue`, or an optional
entry whose value is `None`). -/
def resolveOne (fname gname : String) (pos : Nat) (optional : List String)
    (args : List GVal) (kwds : List (String × GVal)) :
    Except DispatchError (Option GVal) :=
  let afterVal : GVal → Except DispatchError (Option GVal) := fun val =>
    match val with
    | .vNone =>
      if optional.contains gname then .ok none
      else .error (.requiredIsNone fname gname)
    | v => .ok (some v)
  if h : pos < args.length then
    if (lookupKw kwds gname).isSome then
      .error (.multipleValues fname gname)
    else
      afterVal (args.get ⟨pos, h⟩)
  else
    match lookupKw kwds gname with
    | some v => afterVal v
    | none =>
      if optional.contains gname then .ok none
      else .error (.missingRequired fname gname)

/-- The full resolution loop: spec entries are processed in declaration
order, the first error aborting the call; resolved values are collected in
the insertion order of `graphs_resolved`. -/
def resolveGraphs (fname : String) (gspec : List (String × Nat))
    (optional : List String) (args : List GVal) (kwds : List (String × GVal)) :
    Except DispatchError (List (String × GVal)) :=
  match gspec with
  | [] => .ok []
  | (gname, pos) :: rest => do
    let r ← resolveOne fname gname pos optional args kwds
    let tail ← resolveGraphs fname rest optional args kwds
    match r with
    | some v => .ok ((gname, v) :: tail)
    | none => .ok tail

/-- Deduplicate a list of strings, modelling the Python set
`{getattr(g, "__networkx_plugin__", "networkx") for g in ...}`
(sets are unordered; this picks one canonical enumeration). -/
def dedupStr : List String → List String
  | [] => []
  | x :: xs =>
    let r := dedupStr xs
    if r.contains x then r else x :: r

/-- The graph-name preprocessing of `_dispatch` (backends.py lines
207-220): a string becomes `{s: 0}`, a name ending in `?` is stripped of
the marker and recorded as optional.  Returns the rewritten spec and the
optional-name set. -/
def stripOptionalMarks (gspec : List (String × Nat)) :
    List (String × Nat) × List String :=
  let optional := gspec.filterMap
    (fun p => if p.1.endsWith "?" then some (p.1.dropRight 1) else none)
  let spec := gspec.map
    (fun p => (if p.1.endsWith "?" then (p.1.dropRight 1, p.2) else p))
  (spec, optional)

/-- The plugin-routing half of `wrapper` (backends.py lines 256-276),
given the resolved graphs: if any resolved graph has the
`__networkx_plugin__` attribute, collect the set of plugin names with
untagged graphs contributing the default `"networkx"`; a non-singleton
set is a mismatch error; the single name is then looked up among the
registered entry points (`plugins`) and must expose the algorithm. -/
def routeResolved (fname : String) (resolved : List (String × GVal))
    (plugins : List String) (hasAlgo : String → String → Bool) :
    Except DispatchError DispatchOutcome :=
  if resolved.any (fun p => p.2.hasTag) then
    match dedupStr (resolved.map (fun p => p.2.tagOrDefault)) with
    | [pn] =>
      if plugins.contains pn then
        if hasAlgo pn fname then .ok (.backend pn)
        else .error (.notImplementedBy fname pn)
      else .error (.unableToLoadPlugin pn)
    | names => .error (.backendMismatch fname names)
  else .ok .native

/-- The whole `wrapper` closure produced by `_dispatch` (backends.py lines
222-276): resolve the graph arguments, then route. -/
def dispatchCall (fname : String) (gspec : List (String × Nat))
    (optional : List String) (plugins : List String)
    (hasAlgo : String → String → Bool)
    (args : List GVal) (kwds : List (String × GVal)) :
    Except DispatchError DispatchOutcome := do
  let resolved ← resolveGraphs fname gspec optional args kwds
  routeResolved fname resolved plugins hasAlgo

/-!
## Model of `test_override_dispatch` (the ConversionHarness mode)
-/

/-- The outcome of the backend availability check at the top of the
harness `wrapper` (backends.py lines 339-345). -/
inductive HarnessCheck where
  /-- The backend has the algorithm; the call proceeds to conversion. -/
  | proceed
  /-- `NetworkXNotImplemented(f"{name} not found in ...")`: a hard error
  that fails the test run. -/
  | hardNotFound (fname : String)
  /-- `pytest.xfail(...)`: the case is marked as an expected failure and
  the broader test run continues. -/
  | softXfail (fname pname : String)
deriving DecidableEq, Repr

/-- Backends.py lines 339-345: if the loaded backend lacks the algorithm,
the canonical reference backend `"nx-loopback"` fails hard, any other
backend is downgraded to `pytest.xfail`. -/
def harnessBackendCheck (pname fname : String)
    (hasAlgo : String → String → Bool) : HarnessCheck :=
  if hasAlgo pname fname then .proceed
  else if pname = "nx-loopback" then .hardNotFound fname
  else .softXfail fname pname

/-- A value bound to a function parameter by `sig.bind(...).apply_defaults()`:
a plain value or a list of values (the only shapes the attribute-conversion
code inspects). -/
inductive BoundVal where
  | bv (v : Value)
  | bvList (vs : List Value)
deriving DecidableEq, Repr

/-- Lookup in `bound.arguments`. -/
abbrev lookupBound (bound : List (String × BoundVal)) (k : String) :
    Option BoundVal :=
  pyGet bound k

/-- The `edge_attrs` / `node_attrs` declaration given to the decorator:
absent, a string (argument indirection, with the `[`-prefixed list form),
or a dict mapping argument names to defaults, where a string default is
itself an argument indirection (`isinstance(val, str)`). -/
inductive AttrDecl where
  | adNone
  | adStr (s : String)
  | adDict (m : List (String × Value))
deriving DecidableEq, Repr

/-- The `preserve_edge_attrs` / `preserve_node_attrs` declaration:
absent (`None`), literally `True`, a string naming a bound argument, or
any other value (which the chain of `elif`s treats as not preserving). -/
inductive PreserveDecl where
  | pdNone
  | pdTrue
  | pdStr (s : String)
  | pdOther
deriving DecidableEq, Repr

/-- Backends.py lines 353-366 (and identically 386-399): compute the
effective preserve flag and the possibly-cleared attribute declaration.
`None` → keep the declaration, do not preserve; `True` → preserve and drop
the declaration; a string names a bound argument whose value must be
literally `True` to preserve (an unbound name is a `KeyError`); anything
else does not preserve. -/
def computePreserve (pd : PreserveDecl) (spec : AttrDecl)
    (bound : List (String × BoundVal)) : Except PyErr (Bool × AttrDecl) :=
  match pd with
  | .pdNone => .ok (false, spec)
  | .pdTrue => .ok (true, .adNone)
  | .pdStr s =>
    match lookupBound bound s with
    | none => .error (.keyError s)
    | some v =>
      if v = .bv (.vBool true) then .ok (true, .adNone) else .ok (false, spec)
  | .pdOther => .ok (false, spec)

/-- Iterate a bound value as Python `for x in v` does: a list yields its
elements, a string yields its characters as one-character strings, and
everything else raises `TypeError`. -/
def iterBound : BoundVal → Except PyErr (List Value)
  | .bvList vs => .ok vs
  | .bv (.vStr s) => .ok (s.toList.map (fun c => .vStr (String.mk [c])))
  | .bv _ => .error .typeErrorBadIter

/-- Backends.py lines 367-384: the effective `edge_attrs` dict passed to
`convert_from_nx`.  A `[`-prefixed string indirects through a bound
argument holding a list of attribute names, each defaulting to `1`; a
plain string indirects through a bound argument holding one attribute
name, defaulting to `1`; a dict maps `bound.arguments[key]` to
`bound.arguments.get(val, 1)` when the declared default is a string and to
the literal default otherwise.  The result is the comprehension pair
stream (Python builds a dict from it, collapsing duplicate keys
last-wins; the claims never produce duplicates). -/
def resolveEdgeAttrs (spec : AttrDecl) (bound : List (String × BoundVal)) :
    Except PyErr (Option (List (BoundVal × BoundVal))) :=
  match spec with
  | .adNone => .ok none
  | .adStr s =>
    match s.toList with
    | [] => .error .indexError
    | c :: rest =>
      if c = '[' then
        match lookupBound bound (String.mk rest.dropLast) with
        | none => .error (.keyError (String.mk rest.dropLast))
        | some v => do
          let names ← iterBound v
          .ok (some (names.map (fun a => (.bv a, .bv (.vInt 1)))))
      else
        match lookupBound bound s with
        | none => .error (.keyError s)
        | some v => .ok (some [(v, .bv (.vInt 1))])
  | .adDict m =>
    let pairs := m.mapM (fun p =>
      match lookupBound bound p.1 with
      | none => Except.error (PyErr.keyError p.1)
      | some k =>
        match p.2 with
        | .vStr t => Except.ok (k, (lookupBound bound t).getD (.bv (.vInt 1)))
        | d => Except.ok (k, BoundVal.bv d))
    Except.map some pairs

/-- Backends.py lines 400-416: the effective `node_attrs` dict.  The two
string forms mirror the edge case with default `None` instead of `1`.
The dict branch, however, is the dict display
`{bound.arguments[key]: bound.arguments.get(val) if isinstance(val, str) else val}`
with no `for` clause: the name `key` is not bound in the wrapper, in
`test_override_dispatch`, or at module scope (the comprehensions nearby
bind `k`/`v`, and the walrus at line 328 binds only `val`), so evaluating
it raises `NameError` before anything else happens. -/
def resolveNodeAttrs (spec : AttrDecl) (bound : List (String × BoundVal)) :
    Except PyErr (Option (List (BoundVal × BoundVal))) :=
  match spec with
  | .adNone => .ok none
  | .adStr s =>
    match s.toList with
    | [] => .error .indexError
    | c :: rest =>
      if c = '[' then
        match lookupBound bound (String.mk rest.dropLast) with
        | none => .error (.keyError (String.mk rest.dropLast))
        | some v => do
          let names ← iterBound v
          .ok (some (names.map (fun a => (.bv a, .bv .vNone))))
      else
        match lookupBound bound s with
        | none => .error (.keyError s)
        | some v => .ok (some [(v, .bv .vNone)])
  | .adDict _ => .error (.nameError "key")

/-- The edge-attribute pipeline of the harness `wrapper`: preserve logic
(lines 353-366) followed by attribute resolution (lines 367-384). -/
def harnessEdgeAttrs (pd : PreserveDecl) (spec : AttrDecl)
    (bound : List (String × BoundVal)) :
    Except PyErr (Bool × Option (List (BoundVal × BoundVal))) := do
  let pres ← computePreserve pd spec bound
  let attrs ← resolveEdgeAttrs pres.2 bound
  .ok (pres.1, attrs)

/-- The node-attribute pipeline of the harness `wrapper`: preserve logic
(lines 386-399) followed by attribute resolution (lines 400-416). -/
def harnessNodeAttrs (pd : PreserveDecl) (spec : AttrDecl)
    (bound : List (String × BoundVal)) :
    Except PyErr (Bool × Option (List (BoundVal × BoundVal))) := do
  let pres ← computePreserve pd spec bound
  let attrs ← resolveNodeAttrs pres.2 bound
  .ok (pres.1, attrs)

/-- `_registered_algorithms` lookup. -/
def lookupAlgo (reg : AlgoRegistry) (name : String) : Option AlgoFunc :=
  pyGet reg.entries name

/-!
## Helper lemmas
-/

theorem except_bind_ok {E A : Type} (x : Except E A) :
    (x >>= fun t => Except.ok t) = x := by
  cases x <;> rfl

theorem pyGet_append_of_no_key {A : Type} (xs ys : List (String × A))
    (k : String) (h : ∀ p ∈ xs, p.1 ≠ k) :
    pyGet (xs ++ ys) k = pyGet ys k := by
  induction xs with
  | nil => rfl
  | cons p rest ih =>
    have h1 : p.1 ≠ k := h p (List.mem_cons_self p rest)
    rw [List.cons_append]
    rw [show pyGet (p :: (rest ++ ys)) k
          = if p.1 = k then some p.2 else pyGet (rest ++ ys) k from rfl]
    rw [if_neg h1]
    exact ih (fun q hq => h q (List.mem_cons_of_mem p hq))

theorem pyGet_mem_of_nodup_keys {A : Type} (xs : List (String × A))
    (hnd : (xs.map Prod.fst).Nodup) (p : String × A) (hp : p ∈ xs) :
    pyGet xs p.1 = some p.2 := by
  induction xs with
  | nil => cases hp
  | cons q rest ih =>
    rcases List.mem_cons.mp hp with h | h
    · subst h
      rw [show pyGet (p :: rest) p.1
            = if p.1 = p.1 then some p.2 else pyGet rest p.1 from rfl]
      rw [if_pos rfl]
    · have hq : q.1 ≠ p.1 := by
        intro he
        have : p.1 ∈ rest.map Prod.fst := List.mem_map_of_mem Prod.fst h
        rw [List.map_cons] at hnd
        exact (List.nodup_cons.mp hnd).1 (he ▸ this)
      rw [show pyGet (q :: rest) p.1
            = if q.1 = p.1 then some q.2 else pyGet rest p.1 from rfl]
      rw [if_neg hq]
      exact ih ((List.nodup_cons.mp (List.map_cons Prod.fst q rest ▸ hnd)).2) h

theorem mem_dedupStr (xs : List String) (a : String) :
    a ∈ dedupStr xs ↔ a ∈ xs := by
  induction xs with
  | nil => simp [dedupStr]
  | cons x rest ih =>
    simp only [dedupStr, List.mem_cons]
    by_cases hc : (dedupStr rest).contains x
    · rw [if_pos hc]
      rw [ih]
      constructor
      · exact Or.inr
      · rintro (h | h)
        · subst h
          exact ih.mp (by simpa using hc)
        · exact h
    · rw [if_neg hc]
      simp only [List.mem_cons, ih]

theorem dedupStr_const (xs : List String) (a : String)
    (hne : xs ≠ []) (hall : ∀ x ∈ xs, x = a) :
    dedupStr xs = [a] := by
  induction xs with
  | nil => exact absurd rfl hne
  | cons x rest ih =>
    have hx : x = a := hall x (List.mem_cons_self x rest)
    subst hx
    by_cases hr : rest = []
    · subst hr
      simp [dedupStr]
    · have hrec : dedupStr rest = [x] :=
        ih hr (fun y hy => hall y (List.mem_cons_of_mem x hy))
      simp [dedupStr, hrec]

theorem itemsSetEq_self (xs : List (String × Value)) :
    itemsSetEq xs xs = true := by
  simp only [itemsSetEq, Bool.and_eq_true, List.all_eq_true]
  constructor <;>
  · intro p hp
    simp only [List.any_eq_true]
    exact ⟨p, hp, by simp⟩

/-!
## Claim theorems
-/

/-- C5: registering an algorithm name that is already present always fails
with the duplicate-registration error and leaves the registry unchanged,
while registering two distinct fresh names succeeds, stores both mappings,
and attaches each name to its wrapper (`dispatchname`). -/
theorem registerAlgo_duplicate_fails_distinct_succeeds
    (reg : AlgoRegistry) (name n1 n2 : String) (f f1 f2 : AlgoFunc)
    (hdup : reg.entries.any (fun p => p.1 == name) = true)
    (h1 : reg.entries.any (fun p => p.1 == n1) = false)
    (h2 : reg.entries.any (fun p => p.1 == n2) = false)
    (hne : n1 ≠ n2) :
    registerAlgo reg name f
      = (reg, some "Algorithm already exists in dispatch registry")
    ∧ (registerAlgo reg n1 f1).2 = none
    ∧ (registerAlgo (registerAlgo reg n1 f1).1 n2 f2).2 = none
    ∧ lookupAlgo (registerAlgo (registerAlgo reg n1 f1).1 n2 f2).1 n1
        = some { f1 with dispatchname := some n1 }
    ∧ lookupAlgo (registerAlgo (registerAlgo reg n1 f1).1 n2 f2).1 n2
        = some { f2 with dispatchname := some n2 } := by
  have hkeys1 : ∀ p ∈ reg.entries, p.1 ≠ n1 := by
    intro p hp he
    rw [List.any_eq_false] at h1
    exact h1 p hp (by simp [he])
  have hkeys2 : ∀ p ∈ reg.entries, p.1 ≠ n2 := by
    intro p hp he
    rw [List.any_eq_false] at h2
    exact h2 p hp (by simp [he])
  have hr1 : registerAlgo reg n1 f1
      = ({ entries := reg.entries ++ [(n1, { f1 with dispatchname := some n1 })] },
         none) := by
    simp [registerAlgo, h1]
  have hany2 : ((reg.entries ++ [(n1, { f1 with dispatchname := some n1 })]).any
      (fun p => p.1 == n2)) = false := by
    rw [List.any_append, h2]
    simp [hne]
  have hr2 : registerAlgo (registerAlgo reg n1 f1).1 n2 f2
      = ({ entries := (reg.entries ++ [(n1, { f1 with dispatchname := some n1 })])
            ++ [(n2, { f2 with dispatchname := some n2 })] }, none) := by
    rw [hr1]
    simp [registerAlgo, hany2]
  refine ⟨by simp [registerAlgo, hdup], by rw [hr1], by rw [hr2], ?_, ?_⟩
  · rw [hr2]
    show pyGet ((reg.entries ++ [(n1, { f1 with dispatchname := some n1 })])
      ++ [(n2, { f2 with dispatchname := some n2 })]) n1 = _
    rw [List.append_assoc]
    rw [pyGet_append_of_no_key _ _ _ hkeys1]
    simp [pyGet]
  · rw [hr2]
    show pyGet ((reg.entries ++ [(n1, { f1 with dispatchname := some n1 })])
      ++ [(n2, { f2 with dispatchname := some n2 })]) n2 = _
    rw [pyGet_append_of_no_key]
    · simp [pyGet]
    · intro p hp
      rcases List.mem_append.mp hp with h | h
      · exact hkeys2 p h
      · rcases List.mem_singleton.mp h with rfl
        exact hne

/-- Witness for C5 at a concrete registry. -/
theorem registerAlgo_duplicate_fails_distinct_succeeds_witness :
    registerAlgo { entries := [("pagerank", ⟨7, some "pagerank"⟩)] } "pagerank" ⟨9, none⟩
      = ({ entries := [("pagerank", ⟨7, some "pagerank"⟩)] },
         some "Algorithm already exists in dispatch registry")
    ∧ lookupAlgo (registerAlgo (registerAlgo { entries := [("pagerank", ⟨7, some "pagerank"⟩)] }
          "betweenness" ⟨1, none⟩).1 "closeness" ⟨2, none⟩).1 "closeness"
        = some ⟨2, some "closeness"⟩ := by
  have h := registerAlgo_duplicate_fails_distinct_succeeds
    { entries := [("pagerank", ⟨7, some "pagerank"⟩)] }
    "pagerank" "betweenness" "closeness" ⟨9, none⟩ ⟨1, none⟩ ⟨2, none⟩
    (by decide) (by decide) (by decide) (by decide)
  exact ⟨h.1, h.2.2.2.2⟩

/-- C7: in ConversionHarness mode, when the resolved target backend lacks
the algorithm, the canonical reference backend `nx-loopback` fails hard
with the not-found error while any other backend is downgraded to a soft
`pytest.xfail` expected failure. -/
theorem harnessBackendCheck_missing_algo
    (pname fname : String) (hasAlgo : String → String → Bool)
    (h : hasAlgo pname fname = false) :
    harnessBackendCheck pname fname hasAlgo
      = if pname = "nx-loopback" then .hardNotFound fname
        else .softXfail fname pname := by
  simp [harnessBackendCheck, h]

/-- Witness for C7: one missing algorithm, checked on the reference
backend and on another backend. -/
theorem harnessBackendCheck_missing_algo_witness :
    harnessBackendCheck "nx-loopback" "pagerank" (fun _ _ => false)
      = .hardNotFound "pagerank"
    ∧ harnessBackendCheck "sparse" "pagerank" (fun _ _ => false)
      = .softXfail "pagerank" "sparse" := by
  constructor
  · rw [harnessBackendCheck_missing_algo "nx-loopback" "pagerank" _ rfl]
    rfl
  · rw [harnessBackendCheck_missing_algo "sparse" "pagerank" _ rfl]
    rfl

/-- C9: a graph argument explicitly tagged with the native backend name
`"networkx"` is not run natively; the name is looked up among the
registered plugins, so with no plugin of that name the call fails with
the unable-to-load error instead of executing the native function. -/
theorem networkx_tagged_graph_not_native
    (fname : String) (plugins : List String) (hasAlgo : String → String → Bool)
    (h : plugins.contains "networkx" = false) :
    dispatchCall fname [("G", 0)] [] plugins hasAlgo
        [.vGraph (some "networkx")] []
      = .error (.unableToLoadPlugin "networkx") := by
  have h2 : ¬ ("networkx" ∈ plugins) := by simpa using h
  simp [dispatchCall, resolveGraphs, resolveOne, routeResolved, dedupStr,
        GVal.hasTag, GVal.tagOrDefault, pyGet, Bind.bind, Except.bind, h2]

/-- Witness for C9 with an empty plugin registry. -/
theorem networkx_tagged_graph_not_native_witness :
    dispatchCall "pagerank" [("G", 0)] [] [] (fun _ _ => true)
        [.vGraph (some "networkx")] []
      = .error (.unableToLoadPlugin "networkx") :=
  networkx_tagged_graph_not_native "pagerank" [] (fun _ _ => true) rfl

/-- C3 (code bug): `Config.__call__` with any non-empty set of proposed
changes raises `AttributeError` on its first statement, because the
validation hook it invokes is named `_check_config` while the class only
defines `_on_setattr`; no change is ever validated, snapshotted or
applied, contradicting the documented (and docstring-doctested)
behaviour. -/
theorem config_call_nonempty_always_raises
    (st : ConfigState) (kwargs : List (String × Value)) (h : kwargs ≠ []) :
    Config.call st kwargs = .error (.attributeError "_check_config") := by
  cases kwargs with
  | nil => exact absurd rfl h
  | cons a t => rfl

/-- Witness for C3: the docstring example `cfg(spam=3)` raises. -/
theorem config_call_nonempty_always_raises_witness :
    Config.call
      { cls := { clsName := "MyConfig", strict := true,
                 fields := ["eggs", "spam"], defaults := [] },
        data := [("eggs", .vInt 1), ("spam", .vInt 5)],
        prev := none, ctxStack := [] }
      [("spam", .vInt 3)]
      = .error (.attributeError "_check_config") :=
  config_call_nonempty_always_raises _ _ (by simp)

/-- The config of the `Config` docstring (`eggs=1, spam=5`), used to
exhibit the scoped-override bug. -/
def cfgScoped : ConfigState :=
  { cls := { clsName := "ScopedConfig", strict := true,
             fields := ["eggs", "spam"], defaults := [] },
    data := [("eggs", .vInt 1), ("spam", .vInt 5)],
    prev := none, ctxStack := [] }

/-- C2 (code bug): the scoped-override protocol
`with cfg(spam=3): ...` never reaches `__enter__` — the override call
itself raises `AttributeError` (missing `_check_config`) — so no scope
applying a change can be entered, and the claimed apply-then-restore
invariant cannot hold.  The snapshot machinery itself is intact: with a
snapshot staged in `_prev` by hand, `__enter__` then `__exit__` restores
the config exactly. -/
theorem config_scoped_override_raises_before_entering :
    Config.call cfgScoped [("spam", .vInt 3)]
      = .error (.attributeError "_check_config")
    ∧ Config.exitScope
        (Config.enterScope { cfgScoped with prev := some (Config.export cfgScoped) })
      = .ok cfgScoped := by
  constructor
  · rfl
  · rfl

/-- C4 (code bug): in ConversionHarness mode a dict-valued `node_attrs`
declaration always raises `NameError` — the node branch is a dict display
referencing undefined loop variables instead of a dict comprehension —
while the corresponding `edge_attrs` dict branch resolves each declared
attribute key through the bound arguments as the claim describes. -/
theorem harness_node_attrs_dict_raises
    (m : List (String × Value)) (bound : List (String × BoundVal)) :
    harnessNodeAttrs .pdNone (.adDict m) bound = .error (.nameError "key")
    ∧ harnessEdgeAttrs .pdNone (.adDict [("eattr", .vStr "edefault")])
        [("eattr", .bv (.vStr "weight")), ("edefault", .bv (.vInt 2))]
      = .ok (false, some [(.bv (.vStr "weight"), .bv (.vInt 2))]) := by
  constructor
  · rfl
  · rfl

/-- C10: in ConversionHarness mode, attribute names resolved from a
string declaration get default `1` for edge attributes and default `None`
for node attributes, in both the plain-argument form and the
`[`-prefixed list-argument form. -/
theorem harness_string_attr_defaults
    (bound : List (String × BoundVal))
    (s1 : String) (c : Char) (cs1 : List Char) (v : BoundVal)
    (s2 : String) (cs2 : List Char) (names : List Value)
    (h1 : s1.toList = c :: cs1) (h2 : c ≠ '[')
    (h3 : lookupBound bound s1 = some v)
    (h4 : s2.toList = '[' :: cs2)
    (h5 : lookupBound bound (String.mk cs2.dropLast) = some (.bvList names)) :
    resolveEdgeAttrs (.adStr s1) bound = .ok (some [(v, .bv (.vInt 1))])
    ∧ resolveNodeAttrs (.adStr s1) bound = .ok (some [(v, .bv .vNone)])
    ∧ resolveEdgeAttrs (.adStr s2) bound
        = .ok (some (names.map (fun a => (.bv a, .bv (.vInt 1)))))
    ∧ resolveNodeAttrs (.adStr s2) bound
        = .ok (some (names.map (fun a => (.bv a, .bv .vNone)))) := by
  have h1d : s1.data = c :: cs1 := h1
  have h4d : s2.data = '[' :: cs2 := h4
  refine ⟨?_, ?_, ?_, ?_⟩
  · simp [resolveEdgeAttrs, h1d, h2, h3]
  · simp [resolveNodeAttrs, h1d, h2, h3]
  · simp [resolveEdgeAttrs, h4d, h5, iterBound, Bind.bind, Except.bind]
  · simp [resolveNodeAttrs, h4d, h5, iterBound, Bind.bind, Except.bind]

/-- Witness for C10: `edge_attrs="w"` with bound `w="weight"`, and
`node_attrs="[ns]"` with bound `ns=["a", "b"]`. -/
theorem harness_string_attr_defaults_witness :
    resolveEdgeAttrs (.adStr "w")
        [("w", .bv (.vStr "weight")), ("ns", .bvList [.vStr "a", .vStr "b"])]
      = .ok (some [(.bv (.vStr "weight"), .bv (.vInt 1))])
    ∧ resolveNodeAttrs (.adStr "[ns]")
        [("w", .bv (.vStr "weight")), ("ns", .bvList [.vStr "a", .vStr "b"])]
      = .ok (some [(.bv (.vStr "a"), .bv .vNone), (.bv (.vStr "b"), .bv .vNone)]) := by
  have h := harness_string_attr_defaults
    [("w", .bv (.vStr "weight")), ("ns", .bvList [.vStr "a", .vStr "b"])]
    "w" 'w' [] (.bv (.vStr "weight"))
    "[ns]" ['n', 's', ']'] [.vStr "a", .vStr "b"]
    rfl (by decide) rfl rfl rfl
  exact ⟨h.1, h.2.2.2⟩

/-- A spec entry whose resolution step yields nothing is simply skipped by
the resolution loop. -/
theorem resolveGraphs_cons_skip (fname gname : String) (pos : Nat)
    (optional : List String) (args : List GVal) (kwds : List (String × GVal))
    (gspec : List (String × Nat))
    (h : resolveOne fname gname pos optional args kwds = .ok none) :
    resolveGraphs fname ((gname, pos) :: gspec) optional args kwds
      = resolveGraphs fname gspec optional args kwds := by
  show (resolveOne fname gname pos optional args kwds >>= fun r =>
      resolveGraphs fname gspec optional args kwds >>= fun tail =>
      match r with
      | some v => .ok ((gname, v) :: tail)
      | none => .ok tail)
    = resolveGraphs fname gspec optional args kwds
  rw [h]
  show (resolveGraphs fname gspec optional args kwds >>= fun tail => Except.ok tail)
    = resolveGraphs fname gspec optional args kwds
  exact except_bind_ok _

/-- C6: graph-argument resolution fails with the multiple-values error
when an entry is supplied both positionally and by keyword, with the
missing-required error when a required entry is absent from both, and
with the is-None error when a required entry resolves to `None`
(positionally or by keyword); an optional entry that is absent, or whose
value is `None`, is skipped — it is not added to the resolved set and
the loop proceeds with the remaining entries. -/
theorem resolve_graph_argument_errors
    (fname gname : String) (pos : Nat) (optional : List String)
    (args : List GVal) (kwds : List (String × GVal))
    (gspec : List (String × Nat)) :
    (∀ _ : pos < args.length, (lookupKw kwds gname).isSome = true →
      resolveOne fname gname pos optional args kwds
        = .error (.multipleValues fname gname))
    ∧ (¬ pos < args.length → lookupKw kwds gname = none →
        optional.contains gname = false →
        resolveOne fname gname pos optional args kwds
          = .error (.missingRequired fname gname))
    ∧ (∀ h : pos < args.length, lookupKw kwds gname = none →
        args.get ⟨pos, h⟩ = .vNone → optional.contains gname = false →
        resolveOne fname gname pos optional args kwds
          = .error (.requiredIsNone fname gname))
    ∧ (¬ pos < args.length → lookupKw kwds gname = some .vNone →
        optional.contains gname = false →
        resolveOne fname gname pos optional args kwds
          = .error (.requiredIsNone fname gname))
    ∧ (optional.contains gname = true → ¬ pos < args.length →
        lookupKw kwds gname = none →
        resolveOne fname gname pos optional args kwds = .ok none
        ∧ resolveGraphs fname ((gname, pos) :: gspec) optional args kwds
            = resolveGraphs fname gspec optional args kwds)
    ∧ (optional.contains gname = true → ∀ h : pos < args.length,
        lookupKw kwds gname = none → args.get ⟨pos, h⟩ = .vNone →
        resolveOne fname gname pos optional args kwds = .ok none
        ∧ resolveGraphs fname ((gname, pos) :: gspec) optional args kwds
            = resolveGraphs fname gspec optional args kwds)
    ∧ (optional.contains gname = true → ¬ pos < args.length →
        lookupKw kwds gname = some .vNone →
        resolveOne fname gname pos optional args kwds = .ok none
        ∧ resolveGraphs fname ((gname, pos) :: gspec) optional args kwds
            = resolveGraphs fname gspec optional args kwds) := by
  refine ⟨?_, ?_, ?_, ?_, ?_, ?_, ?_⟩
  · intro h hk
    simp [resolveOne, h, hk]
  · intro h hk hreq
    have hn : gname ∉ optional := by simpa using hreq
    simp [resolveOne, h, hk, hn]
  · intro h hk hv hreq
    have hn : gname ∉ optional := by simpa using hreq
    have hv2 : args[pos] = GVal.vNone := by simpa using hv
    simp [resolveOne, h, hk, hv2, hn]
  · intro h hk hreq
    have hn : gname ∉ optional := by simpa using hreq
    simp [resolveOne, h, hk, hn]
  · intro hopt h hk
    have hm : gname ∈ optional := by simpa using hopt
    have h1 : resolveOne fname gname pos optional args kwds = .ok none := by
      simp [resolveOne, h, hk, hm]
    exact ⟨h1, resolveGraphs_cons_skip _ _ _ _ _ _ _ h1⟩
  · intro hopt h hk hv
    have hm : gname ∈ optional := by simpa using hopt
    have hv2 : args[pos] = GVal.vNone := by simpa using hv
    have h1 : resolveOne fname gname pos optional args kwds = .ok none := by
      simp [resolveOne, h, hk, hv2, hm]
    exact ⟨h1, resolveGraphs_cons_skip _ _ _ _ _ _ _ h1⟩
  · intro hopt h hk
    have hm : gname ∈ optional := by simpa using hopt
    have h1 : resolveOne fname gname pos optional args kwds = .ok none := by
      simp [resolveOne, h, hk, hm]
    exact ⟨h1, resolveGraphs_cons_skip _ _ _ _ _ _ _ h1⟩

/-- Witness for C6: each error and skip case evaluated on concrete
arguments for a spec `{"G": 0}` (required) or `{"H": 0}` optional. -/
theorem resolve_graph_argument_errors_witness :
    resolveOne "f" "G" 0 [] [.vGraph none] [("G", .vGraph none)]
      = .error (.multipleValues "f" "G")
    ∧ resolveOne "f" "G" 0 [] [] [] = .error (.missingRequired "f" "G")
    ∧ resolveOne "f" "G" 0 [] [.vNone] [] = .error (.requiredIsNone "f" "G")
    ∧ resolveOne "f" "G" 0 [] [] [("G", .vNone)]
      = .error (.requiredIsNone "f" "G")
    ∧ resolveGraphs "f" [("H", 0)] ["H"] [] [] = resolveGraphs "f" [] ["H"] [] []
    ∧ resolveGraphs "f" [("H", 0)] ["H"] [.vNone] []
      = resolveGraphs "f" [] ["H"] [.vNone] []
    ∧ resolveGraphs "f" [("H", 0)] ["H"] [] [("H", .vNone)]
      = resolveGraphs "f" [] ["H"] [] [("H", .vNone)] := by
  refine ⟨?_, ?_, ?_, ?_, ?_, ?_, ?_⟩
  · exact (resolve_graph_argument_errors "f" "G" 0 [] [.vGraph none]
      [("G", .vGraph none)] []).1 (by decide) (by decide)
  · exact (resolve_graph_argument_errors "f" "G" 0 [] [] [] []).2.1
      (by decide) rfl rfl
  · exact (resolve_graph_argument_errors "f" "G" 0 [] [.vNone] [] []).2.2.1
      (by decide) rfl rfl rfl
  · exact (resolve_graph_argument_errors "f" "G" 0 [] [] [("G", .vNone)] []).2.2.2.1
      (by decide) rfl rfl
  · exact ((resolve_graph_argument_errors "f" "H" 0 ["H"] [] [] []).2.2.2.2.1
      rfl (by decide) rfl).2
  · exact ((resolve_graph_argument_errors "f" "H" 0 ["H"] [.vNone] [] []).2.2.2.2.2.1
      rfl (by decide) rfl rfl).2
  · exact ((resolve_graph_argument_errors "f" "H" 0 ["H"] [] [("H", .vNone)] []).2.2.2.2.2.2
      rfl (by decide) rfl).2

/-- Counterexample to C1 as stated: one graph tagged `"b"` together with
one untagged (native) graph.  The claim says the single non-native tag
`"b"` should be selected; the code puts the default `"networkx"` of the
untagged graph into the plugin-name set as well and raises the
graphs-must-all-be-from-the-same-plugin error naming both. -/
theorem dispatch_mixed_tagged_untagged_fails :
    dispatchCall "foo" [("G", 0), ("H", 1)] [] ["b"] (fun _ _ => true)
        [.vGraph (some "b"), .vGraph none] []
      = .error (.backendMismatch "foo" ["b", "networkx"])
    ∧ dispatchCall "foo" [("G", 0), ("H", 1)] [] ["b"] (fun _ _ => true)
        [.vGraph (some "b"), .vGraph none] []
      ≠ .ok (.backend "b") := by
  have h1 : dispatchCall "foo" [("G", 0), ("H", 1)] [] ["b"] (fun _ _ => true)
      [.vGraph (some "b"), .vGraph none] []
      = .error (.backendMismatch "foo" ["b", "networkx"]) := rfl
  refine ⟨h1, ?_⟩
  intro hc
  rw [h1] at hc
  exact Except.noConfusion hc

/-- C1 as amended: routing is decided by the set of plugin names in which
every resolved graph participates — a tagged graph contributes its tag,
an untagged one the native default `"networkx"`.  If no resolved graph
carries a tag at all the native function runs; if some graph is tagged,
all resolved graphs must agree on one name `pn` (so tagged and untagged
graphs may not be mixed), and `pn` — even `"networkx"` itself — is then
loaded and must implement the algorithm; if two resolved graphs disagree
the call fails with the same-plugin error naming the collected set. -/
theorem dispatch_routing_by_tag_set
    (fname : String) (gspec : List (String × Nat)) (optional : List String)
    (plugins : List String) (hasAlgo : String → String → Bool)
    (args : List GVal) (kwds : List (String × GVal))
    (resolved : List (String × GVal))
    (hres : resolveGraphs fname gspec optional args kwds = .ok resolved) :
    ((∀ p ∈ resolved, p.2.hasTag = false) →
      dispatchCall fname gspec optional plugins hasAlgo args kwds = .ok .native)
    ∧ (∀ pn, (∃ p ∈ resolved, p.2.hasTag = true) →
        (∀ p ∈ resolved, p.2.tagOrDefault = pn) →
        dispatchCall fname gspec optional plugins hasAlgo args kwds
          = if plugins.contains pn then
              (if hasAlgo pn fname then .ok (.backend pn)
               else .error (.notImplementedBy fname pn))
            else .error (.unableToLoadPlugin pn))
    ∧ ((∃ p ∈ resolved, p.2.hasTag = true) →
        (∃ p ∈ resolved, ∃ q ∈ resolved, p.2.tagOrDefault ≠ q.2.tagOrDefault) →
        dispatchCall fname gspec optional plugins hasAlgo args kwds
          = .error (.backendMismatch fname
              (dedupStr (resolved.map (fun p => p.2.tagOrDefault))))) := by
  have hd : dispatchCall fname gspec optional plugins hasAlgo args kwds
      = routeResolved fname resolved plugins hasAlgo := by
    show (resolveGraphs fname gspec optional args kwds >>= fun r =>
        routeResolved fname r plugins hasAlgo) = _
    rw [hres]
    rfl
  refine ⟨?_, ?_, ?_⟩
  · intro hall
    have hAny : resolved.any (fun p => p.2.hasTag) = false := by
      rw [List.any_eq_false]
      intro p hp
      simp [hall p hp]
    rw [hd]
    simp [routeResolved, hAny]
  · intro pn hex hall
    have hAny : resolved.any (fun p => p.2.hasTag) = true := by
      rw [List.any_eq_true]
      obtain ⟨p, hp, ht⟩ := hex
      exact ⟨p, hp, ht⟩
    have hne : resolved.map (fun p => p.2.tagOrDefault) ≠ [] := by
      obtain ⟨p, hp, _⟩ := hex
      intro hc
      rw [List.map_eq_nil_iff] at hc
      rw [hc] at hp
      cases hp
    have hconst : ∀ x ∈ resolved.map (fun p => p.2.tagOrDefault), x = pn := by
      intro x hx
      obtain ⟨p, hp, rfl⟩ := List.mem_map.mp hx
      exact hall p hp
    have hded : dedupStr (resolved.map (fun p => p.2.tagOrDefault)) = [pn] :=
      dedupStr_const _ _ hne hconst
    rw [hd]
    simp [routeResolved, hAny, hded]
  · intro hex hdist
    have hAny : resolved.any (fun p => p.2.hasTag) = true := by
      rw [List.any_eq_true]
      obtain ⟨p, hp, ht⟩ := hex
      exact ⟨p, hp, ht⟩
    rw [hd]
    simp only [routeResolved, hAny, if_pos]
    cases hded : dedupStr (resolved.map (fun p => p.2.tagOrDefault)) with
    | nil => rfl
    | cons a t =>
      cases t with
      | nil =>
        exfalso
        obtain ⟨p, hp, q, hq, hpq⟩ := hdist
        have hpmem : p.2.tagOrDefault ∈ dedupStr (resolved.map (fun r => r.2.tagOrDefault)) := by
          rw [mem_dedupStr]
          exact List.mem_map_of_mem _ hp
        have hqmem : q.2.tagOrDefault ∈ dedupStr (resolved.map (fun r => r.2.tagOrDefault)) := by
          rw [mem_dedupStr]
          exact List.mem_map_of_mem _ hq
        rw [hded] at hpmem hqmem
        rcases List.mem_singleton.mp hpmem with h1
        rcases List.mem_singleton.mp hqmem with h2
        exact hpq (h1.trans h2.symm)
      | cons b t2 => rfl

/-- Witness for C1 (amended): an untagged graph runs natively; a single
graph tagged `"b"` with backend `"b"` registered and implementing the
algorithm routes to backend `"b"`. -/
theorem dispatch_routing_by_tag_set_witness :
    dispatchCall "foo" [("G", 0)] [] [] (fun _ _ => false) [.vGraph none] []
      = .ok .native
    ∧ dispatchCall "bar" [("G", 0)] [] ["b"] (fun _ _ => true)
        [.vGraph (some "b")] [] = .ok (.backend "b") := by
  constructor
  · exact (dispatch_routing_by_tag_set "foo" [("G", 0)] [] [] (fun _ _ => false)
      [.vGraph none] [] [("G", .vGraph none)] rfl).1 (by decide)
  · have h := (dispatch_routing_by_tag_set "bar" [("G", 0)] [] ["b"] (fun _ _ => true)
      [.vGraph (some "b")] [] [("G", .vGraph (some "b"))] rfl).2.1 "b"
      ⟨("G", .vGraph (some "b")), by decide, by decide⟩ (by decide)
    simpa using h

/-- The flexible-config class of the `Config` docstring example
(`FlexibleConfig(Config, strict=False)` with one defaulted field). -/
def flexClsRT : ConfigClass :=
  { clsName := "FlexibleConfig", strict := false,
    fields := ["default_greeting"],
    defaults := [("default_greeting", .vStr "Hello")] }

/-- A flexible config with one added (undeclared) key, reached through
`FlexibleConfig()` followed by `flexcfg.name = ...` as in the docstring. -/
def flexCfgRT : ConfigState :=
  { cls := flexClsRT,
    data := [("default_greeting", .vStr "Hello"), ("name", .vStr "Anderson")],
    prev := none, ctxStack := [] }

/-- Counterexample to C8 as stated: for the flexible config above — built
by the public operations — reconstruction from its export raises
`TypeError` (the synthesised dataclass `__init__` only accepts declared
fields), so no config equal to the original is produced. -/
theorem config_roundtrip_fails_on_added_key :
    Config.init flexClsRT []
      = .ok { cls := flexClsRT, data := [("default_greeting", .vStr "Hello")],
              prev := none, ctxStack := [] }
    ∧ Config.setattr
        { cls := flexClsRT, data := [("default_greeting", .vStr "Hello")],
          prev := none, ctxStack := [] } "name" (.vStr "Anderson")
      = .ok flexCfgRT
    ∧ Config.reconstruct flexCfgRT.cls (Config.export flexCfgRT)
      = .error (.initUnexpectedKw "name") :=
  ⟨rfl, rfl, rfl⟩

/-- C8 as amended: reconstruction from the exported key→value map yields
a config equal (by original defining class and item set) to the original
for every config whose exported keys are exactly its declared fields —
in particular for every strict config, where keys can be neither added
nor deleted.  (For a base-class `Config`, whose schema was synthesised
from its keywords, the class carries no defaults and is strict.) -/
theorem config_roundtrip_on_declared_fields
    (st : ConfigState)
    (hkeys : st.data.map Prod.fst = st.cls.fields)
    (hnd : (st.data.map Prod.fst).Nodup)
    (hbase : st.cls.clsName = "Config" →
      st.cls.strict = true ∧ st.cls.defaults = []) :
    ∃ st2, Config.reconstruct st.cls (Config.export st) = .ok st2
      ∧ configEq st2 st = true := by
  have hred : Config.reconstruct st.cls (Config.export st)
      = Config.init st.cls st.data := by
    unfold Config.reconstruct Config.export
    by_cases hcn : st.cls.clsName = "Config"
    · rw [if_pos hcn]
      have hcls : ConfigClass.mk "Config" true (st.data.map Prod.fst) []
          = st.cls := by
        obtain ⟨h1, h2⟩ := hbase hcn
        rw [hkeys]
        calc ConfigClass.mk "Config" true st.cls.fields []
            = ConfigClass.mk st.cls.clsName st.cls.strict st.cls.fields
                st.cls.defaults := by rw [hcn, h1, h2]
          _ = st.cls := rfl
      rw [hcls]
    · rw [if_neg hcn]
  have hfind1 : st.data.find? (fun p => ¬ st.cls.fields.contains p.1) = none := by
    rw [List.find?_eq_none]
    intro p hp
    have : p.1 ∈ st.cls.fields := by
      rw [← hkeys]
      exact List.mem_map_of_mem Prod.fst hp
    simp [this]
  have hfind2 : st.cls.fields.find?
      (fun f => ¬ (st.data.any (fun p => p.1 == f)
                   ∨ st.cls.defaults.any (fun p => p.1 == f))) = none := by
    rw [List.find?_eq_none]
    intro f hf
    have : ∃ p ∈ st.data, p.1 = f := by
      rw [← hkeys] at hf
      obtain ⟨p, hp, he⟩ := List.mem_map.mp hf
      exact ⟨p, hp, he⟩
    obtain ⟨p, hp, he⟩ := this
    have hany : st.data.any (fun p => p.1 == f) = true := by
      rw [List.any_eq_true]
      exact ⟨p, hp, by simp [he]⟩
    simp [hany]
  have hdata : st.cls.fields.map
      (fun f => (f, ((lookupV st.data f).or (lookupV st.cls.defaults f)).getD .vNone))
      = st.data := by
    rw [← hkeys, List.map_map]
    have : ∀ p ∈ st.data,
        ((fun f => (f, ((lookupV st.data f).or (lookupV st.cls.defaults f)).getD .vNone))
          ∘ Prod.fst) p = p := by
      intro p hp
      have hv : pyGet st.data p.1 = some p.2 := pyGet_mem_of_nodup_keys st.data hnd p hp
      simp [Function.comp, lookupV, hv, Option.or]
    rw [List.map_congr_left this]
    simp
  refine ⟨{ cls := st.cls, data := st.data, prev := none, ctxStack := [] }, ?_, ?_⟩
  · rw [hred]
    unfold Config.init
    rw [hfind1, hfind2, hdata]
  · simp [configEq, itemsSetEq_self]

/-- Witness for C8 (amended) on a concrete strict config. -/
theorem config_roundtrip_on_declared_fields_witness :
    ∃ st2, Config.reconstruct
        (ConfigClass.mk "NetworkXConfig" true ["backend", "cache"] [])
        (Config.export
          { cls := ConfigClass.mk "NetworkXConfig" true ["backend", "cache"] [],
            data := [("backend", .vNone), ("cache", .vBool true)],
            prev := none, ctxStack := [] })
      = .ok st2
      ∧ configEq st2
          { cls := ConfigClass.mk "NetworkXConfig" true ["backend", "cache"] [],
            data := [("backend", .vNone), ("cache", .vBool true)],
            prev := none, ctxStack := [] } = true :=
  config_roundtrip_on_declared_fields
    { cls := ConfigClass.mk "NetworkXConfig" true ["backend", "cache"] [],
      data := [("backend", .vNone), ("cache", .vBool true)],
      prev := none, ctxStack := [] }
    rfl (by decide) (fun h => absurd h (by decide))
